import Mathlib

/-!
Verification of the taurus_vision detection core against its specification.

The development shallowly embeds the three core components of the backend:

* `WeightEstimator` (backend/app/services/weight_estimator.py): a calibrated
  geometric weight model.  Python floats are modelled as real numbers; the
  sole transcendental operation, `area_ratio ** 1.5`, is modelled on its
  nonnegative domain as `x * Real.sqrt x` (bounding boxes are normalized to
  [0,1], so the exponent base is nonnegative in every reachable call).
  The estimator's single piece of mutable state, the `_total_estimates`
  counter, is threaded explicitly: `estimate` receives the current counter
  and returns the updated one on success, mirroring `self._total_estimates += 1`.
  Exceptions (`raise ValueError` for an unsupported species) become `Except`.

* `DetectionPipeline` (backend/app/services/detection_pipeline.py): the run
  loop is embedded as a fold over a list of per-frame outcomes.  A frame
  outcome records what the external collaborators do on that frame: the
  inference engine either raises or returns a list of detections, and each
  detection's downstream processing (weight estimation + database save)
  either succeeds or raises at one of its two fallible steps.  The
  `try/except` structure of `_run_pipeline`, `_process_frame` and
  `_process_detection` is reproduced exactly: only the frame-level handler
  touches the `errors` counter.  The start/stop lifecycle is embedded as
  explicit state transitions, together with the HTTP control surface
  (backend/app/api/v1/endpoints/pipeline.py) which guards `stop`.

* `ConnectionManager` (backend/app/api/v1/websocket.py): subscribers are
  natural-number identifiers, messages are a small JSON value type, and the
  outcome of one network send is an oracle `fails : Conn → Bool` (a given
  connection either accepts or fails every send of one broadcast pass).
  `broadcast` serializes once, walks the active set delivering the same
  serialized string to every non-failing connection while collecting the
  failing ones, and removes the failed set afterwards, exactly as the
  source's loop does.
-/

namespace TaurusVision

/-! ## Weight Estimator (backend/app/services/weight_estimator.py) -/

/-- `BoundingBox` from app/services/ai/base.py: a normalized axis-aligned
box given by center point and extent.  (`to_dict`/`to_absolute` are
serialization helpers with no bearing on the claims and are omitted.) -/
structure BoundingBox where
  x : ℝ
  y : ℝ
  width : ℝ
  height : ℝ

/-- `Detection` from app/services/ai/base.py, restricted to the fields the
estimator and pipeline read (class id, confidence, box).  `class_name`,
`timestamp`, `mask` and `extra_data` only feed log messages and persistence
payloads. -/
structure Detection where
  class_id : ℕ
  confidence : ℝ
  bounding_box : BoundingBox

/-- One entry of `WeightEstimator.SPECIES_CALIBRATION`. -/
structure Calibration where
  base_weight : ℝ
  scale_factor : ℝ
  min_weight : ℝ
  max_weight : ℝ
  typical_box_area : ℝ

/-- Calibration entry for class id 19 (COCO cow / cattle). -/
def cattleCalibration : Calibration :=
  { base_weight := 500
    scale_factor := 1200
    min_weight := 200
    max_weight := 900
    typical_box_area := 0.15 }

/-- Calibration entry for class id 20 (COCO sheep). -/
def sheepCalibration : Calibration :=
  { base_weight := 70
    scale_factor := 180
    min_weight := 30
    max_weight := 120
    typical_box_area := 0.08 }

/-- The `SPECIES_CALIBRATION` table: class id 19 ↦ cattle, 20 ↦ sheep,
everything else unsupported. -/
def SPECIES_CALIBRATION (class_id : ℕ) : Option Calibration :=
  if class_id = 19 then some cattleCalibration
  else if class_id = 20 then some sheepCalibration
  else none

/-- `x ** 1.5` of the source, on its nonnegative domain: for `0 ≤ x` this is
exactly `x^(3/2) = x * √x`.  (For `x < 0` Python would produce a complex
number; every caller passes a ratio of nonnegative areas.) -/
noncomputable def powOnePointFive (x : ℝ) : ℝ := x * Real.sqrt x

/-- `WeightEstimator._calculate_weight`: scale the base weight by
`area_ratio ** 1.5`, then blend with the base weight by a
confidence-weighted factor `0.7 + 0.3 * confidence`. -/
noncomputable def calculate_weight (box_area : ℝ) (calibration : Calibration)
    (confidence : ℝ) : ℝ :=
  let area_ratio := box_area / calibration.typical_box_area
  let weight := calibration.base_weight * powOnePointFive area_ratio
  let confidence_factor := 0.7 + 0.3 * confidence
  weight * confidence_factor + calibration.base_weight * (1 - confidence_factor)

/-- `WeightEstimator._calculate_confidence`: 30% YOLO confidence, 40% area
similarity, 30% aspect-ratio realism, clamped to `[0.3, 0.95]`. -/
noncomputable def calculate_confidence (bbox : BoundingBox)
    (yolo_confidence box_area typical_area : ℝ) : ℝ :=
  let yolo_factor := yolo_confidence * 0.3
  let area_diff := |box_area - typical_area| / typical_area
  let area_factor := max 0 (1 - area_diff) * 0.4
  let aspect_ratio := if bbox.height > 0 then bbox.width / bbox.height else 0
  let ideal_aspect := (1.4 : ℝ)
  let aspect_diff := |aspect_ratio - ideal_aspect| / ideal_aspect
  let aspect_factor := max 0 (1 - aspect_diff) * 0.3
  max 0.3 (min 0.95 (yolo_factor + area_factor + aspect_factor))

/-- The estimator's error taxonomy: `raise ValueError(...)` for a class id
with no calibration entry — the spec's `UnsupportedSpeciesError`. -/
inductive EstimateError where
  | unsupportedSpecies (class_id : ℕ)
  deriving DecidableEq

/-- The estimator object: its only instance field is the mutable
`_total_estimates` counter set to 0 in `__init__`. -/
structure WeightEstimator where
  total_estimates : ℕ
  deriving DecidableEq, Repr

set_option linter.unusedVariables false in
/-- `WeightEstimator.estimate`, state-passing: the first component of the
result is the estimator after the call, the second the returned
`(weight_kg, confidence)` pair or the raised error.  A raise happens before
`self._total_estimates += 1`, so on the error path the estimator comes back
unchanged; on success it carries the incremented counter.  `frame_shape` is
accepted and ignored, as in the source. -/
noncomputable def estimate (est : WeightEstimator) (detection : Detection)
    (frame_shape : ℕ × ℕ × ℕ) (use_conservative : Bool) :
    WeightEstimator × Except EstimateError (ℝ × ℝ) :=
  match SPECIES_CALIBRATION detection.class_id with
  | none => (est, .error (.unsupportedSpecies detection.class_id))
  | some calibration =>
      let bbox := detection.bounding_box
      let box_area := bbox.width * bbox.height
      let weight0 := calculate_weight box_area calibration detection.confidence
      let weight1 := if use_conservative then weight0 * 0.92 else weight0
      let weight_kg := max calibration.min_weight (min weight1 calibration.max_weight)
      let estimation_confidence :=
        calculate_confidence bbox detection.confidence box_area
          calibration.typical_box_area
      (⟨est.total_estimates + 1⟩, .ok (weight_kg, estimation_confidence))

/-- `WeightEstimator.get_stats`: exposes the mutable counter and the
supported class ids. -/
def get_stats (est : WeightEstimator) : ℕ × List ℕ :=
  (est.total_estimates, [19, 20])

/-! ## Detection Pipeline (backend/app/services/detection_pipeline.py) -/

/-- `DetectionPipeline._stats`: the mutable counter dictionary, plus the
start time (modelled as an abstract clock reading). -/
structure PipelineStats where
  total_frames : ℕ
  processed_frames : ℕ
  detections : ℕ
  measurements_created : ℕ
  errors : ℕ
  start_time : Option ℕ
  deriving DecidableEq, Repr

/-- The stats dictionary as `__init__` builds it: all counters zero,
`start_time = None`. -/
def initStats : PipelineStats :=
  { total_frames := 0
    processed_frames := 0
    detections := 0
    measurements_created := 0
    errors := 0
    start_time := none }

/-- What happens downstream of one detection inside
`_process_detection`: weight estimation succeeds and the database save
succeeds (`ok`), or the estimator raises (`estimateFail`), or
`_save_measurement` raises (`saveFail`).  Both failure kinds are caught by
`_process_detection`'s own `try/except`. -/
inductive DetOutcome where
  | ok
  | estimateFail
  | saveFail
  deriving DecidableEq, Repr

/-- What the inference engine does on one frame: `yolo.detect` raises
(`inferErr`), or returns a (possibly empty) list of detections, each with
its downstream outcome. -/
inductive FrameOutcome where
  | inferErr
  | dets (outcomes : List DetOutcome)
  deriving DecidableEq, Repr

/-- `DetectionPipeline._process_detection`: on success
`_save_measurement` bumps `measurements_created`; any exception from the
estimator or the save is caught, logged and swallowed — no counter is
touched. -/
def process_detection (stats : PipelineStats) : DetOutcome → PipelineStats
  | .ok => { stats with measurements_created := stats.measurements_created + 1 }
  | .estimateFail => stats
  | .saveFail => stats

/-- `DetectionPipeline._process_frame`: run inference (which may raise,
modelled as `Except.error`), return early when there are no detections,
otherwise bump `detections` by the count and process every detection —
`asyncio.gather(..., return_exceptions=True)` plus the per-detection
handler means this step itself never raises past inference. -/
def process_frame (stats : PipelineStats) : FrameOutcome → Except Unit PipelineStats
  | .inferErr => .error ()
  | .dets [] => .ok stats
  | .dets outcomes =>
      .ok (outcomes.foldl process_detection
        { stats with detections := stats.detections + outcomes.length })

/-- The body of `DetectionPipeline._run_pipeline`'s `async for` loop, run
to exhaustion of the frame stream (the cooperative stop flag stays up):
each frame bumps `total_frames`; a successful `_process_frame` bumps
`processed_frames`; an exception is caught at the frame boundary, bumps
`errors`, and the loop continues with the next frame. -/
def run_pipeline (stats : PipelineStats) : List FrameOutcome → PipelineStats
  | [] => stats
  | frame :: rest =>
      let s1 := { stats with total_frames := stats.total_frames + 1 }
      match process_frame s1 frame with
      | .ok s2 =>
          run_pipeline { s2 with processed_frames := s2.processed_frames + 1 } rest
      | .error _ =>
          run_pipeline { s1 with errors := s1.errors + 1 } rest

/-- Lifecycle errors: `start` while running raises
`RuntimeError("Pipeline already running")` (the spec's
`AlreadyRunningError`); the control surface rejects `stop` while stopped
with HTTP 400 "Pipeline not running" (the spec's `NotRunningError`). -/
inductive LifecycleError where
  | alreadyRunning
  | notRunning
  deriving DecidableEq

/-- `DetectionPipeline` state: the `_running` flag and the stats.  (The
camera handle and the asyncio task are I/O resources with no bearing on the
state-and-counters claims.) -/
structure PipelineState where
  running : Bool
  stats : PipelineStats
  deriving DecidableEq

/-- A pipeline as `__init__` leaves it. -/
def initPipeline : PipelineState :=
  { running := false, stats := initStats }

/-- `DetectionPipeline.start`, with the current wall clock passed in for
`datetime.utcnow()`: raises if already running (before any mutation — the
error branch returns no new state, so the caller's state and stats are
untouched); otherwise sets `_running` and stamps `start_time`.  The
counters are not written. -/
def start (now : ℕ) (p : PipelineState) : Except LifecycleError PipelineState :=
  if p.running then .error .alreadyRunning
  else .ok { running := true, stats := { p.stats with start_time := some now } }

/-- `DetectionPipeline.stop`: a silent no-op when not running, otherwise
clears `_running` (task draining and camera shutdown are I/O). -/
def stop (p : PipelineState) : PipelineState :=
  if p.running then { p with running := false } else p

/-- `stop_pipeline` from backend/app/api/v1/endpoints/pipeline.py: the
control surface rejects a stop when there is no pipeline or it is not
running, and otherwise returns the pre-stop stats alongside the stopped
pipeline. -/
def stop_pipeline (pipeline : Option PipelineState) :
    Except LifecycleError (PipelineState × PipelineStats) :=
  match pipeline with
  | none => .error .notRunning
  | some p =>
      if p.running then .ok (stop p, p.stats)
      else .error .notRunning

/-! ## Connection manager (backend/app/api/v1/websocket.py) -/

/-- Minimal JSON value type for the wire messages the manager sends. -/
inductive Json where
  | str (s : String)
  | num (q : ℚ)
  | obj (fields : List (String × Json))

mutual

/-- JSON serialization, `json.dumps`-style (keys and values the manager
sends contain no characters needing escapes). -/
def serializeJson : Json → String
  | .str s => "\"" ++ s ++ "\""
  | .num q => toString q
  | .obj fields => "\x7b" ++ serializeFields fields ++ "\x7d"

/-- Comma-separated `"key": value` pairs of an object body. -/
def serializeFields : List (String × Json) → String
  | [] => ""
  | [(k, v)] => "\"" ++ k ++ "\": " ++ serializeJson v
  | (k, v) :: rest =>
      "\"" ++ k ++ "\": " ++ serializeJson v ++ ", " ++ serializeFields rest

end

/-- The top-level `"type"` field of a wire message, as a subscriber's
decoder would read it. -/
def topLevelType : Json → Option String
  | .obj fields =>
      match fields.lookup "type" with
      | some (.str s) => some s
      | _ => none
  | _ => none

/-- `ConnectionManager` state: the active connection set (subscriber ids)
and the lifetime counters. -/
structure ConnectionManager where
  active_connections : List ℕ
  total_connections : ℕ
  total_disconnections : ℕ
  total_messages_sent : ℕ
  deriving DecidableEq, Repr

/-- The envelope `broadcast` wraps every message in before serializing:
`{"type": "weight_update", "data": message}`. -/
def wrapMessage (message : Json) : Json :=
  .obj [("type", .str "weight_update"), ("data", message)]

/-- The `for connection in self.active_connections` loop of `broadcast`:
walk the connection list sending the already-serialized string; a
successful send counts toward `_total_messages_sent` and delivers the
payload; a failed send adds the connection to `failed_connections`.
Returns (number of successful sends, failed connections, deliveries). -/
def broadcastPass (fails : ℕ → Bool) (json_message : String) :
    List ℕ → ℕ × List ℕ × List (ℕ × String)
  | [] => (0, [], [])
  | conn :: rest =>
      let (sent, failed, delivered) := broadcastPass fails json_message rest
      if fails conn then (sent, conn :: failed, delivered)
      else (sent + 1, failed, (conn, json_message) :: delivered)

/-- `ConnectionManager.broadcast`: early return on an empty connection set;
otherwise wrap the message, serialize once, send the identical string to
every connection (failures collected, not propagated), and remove all
failed connections from the active set after the pass.  The second
component is the list of (subscriber, payload) deliveries. -/
def broadcast (fails : ℕ → Bool) (m : ConnectionManager) (message : Json) :
    ConnectionManager × List (ℕ × String) :=
  if m.active_connections = [] then (m, [])
  else
    let json_message := serializeJson (wrapMessage message)
    let result := broadcastPass fails json_message m.active_connections
    let sent := result.1
    let failed := result.2.1
    let delivered := result.2.2
    ({ m with
        active_connections :=
          m.active_connections.filter (fun c => ¬ c ∈ failed)
        total_messages_sent := m.total_messages_sent + sent },
     delivered)

/-- The message `ConnectionManager.send_heartbeat` constructs, with the
event-loop time passed in. -/
def heartbeatMessage (m : ConnectionManager) (now : ℚ) : Json :=
  .obj [("type", .str "heartbeat"),
        ("timestamp", .num now),
        ("active_connections", .num (m.active_connections.length : ℚ))]

/-- `ConnectionManager.send_heartbeat`: builds the heartbeat message and
hands it to `broadcast`. -/
def send_heartbeat (fails : ℕ → Bool) (m : ConnectionManager) (now : ℚ) :
    ConnectionManager × List (ℕ × String) :=
  broadcast fails m (heartbeatMessage m now)

/-! ## Helper lemmas: weight estimator -/

lemma species_calibration_cases {class_id : ℕ} {cal : Calibration}
    (h : SPECIES_CALIBRATION class_id = some cal) :
    (class_id = 19 ∧ cal = cattleCalibration) ∨
    (class_id = 20 ∧ cal = sheepCalibration) := by
  unfold SPECIES_CALIBRATION at h
  split_ifs at h with h1 h2
  · exact Or.inl ⟨h1, (Option.some.inj h).symm⟩
  · exact Or.inr ⟨h2, (Option.some.inj h).symm⟩

lemma calibration_min_le_max {class_id : ℕ} {cal : Calibration}
    (h : SPECIES_CALIBRATION class_id = some cal) :
    cal.min_weight ≤ cal.max_weight := by
  rcases species_calibration_cases h with ⟨_, rfl⟩ | ⟨_, rfl⟩ <;>
    norm_num [cattleCalibration, sheepCalibration]

lemma calibration_base_nonneg {class_id : ℕ} {cal : Calibration}
    (h : SPECIES_CALIBRATION class_id = some cal) :
    0 ≤ cal.base_weight := by
  rcases species_calibration_cases h with ⟨_, rfl⟩ | ⟨_, rfl⟩ <;>
    norm_num [cattleCalibration, sheepCalibration]

lemma powOnePointFive_nonneg (x : ℝ) : 0 ≤ powOnePointFive x := by
  unfold powOnePointFive
  rcases le_or_lt 0 x with hx | hx
  · exact mul_nonneg hx (Real.sqrt_nonneg x)
  · rw [Real.sqrt_eq_zero'.mpr hx.le, mul_zero]

lemma calculate_weight_nonneg (box_area : ℝ) (cal : Calibration) (conf : ℝ)
    (hbase : 0 ≤ cal.base_weight) (h0 : 0 ≤ conf) (h1 : conf ≤ 1) :
    0 ≤ calculate_weight box_area cal conf := by
  simp only [calculate_weight]
  have hp := powOnePointFive_nonneg (box_area / cal.typical_box_area)
  have hw : 0 ≤ cal.base_weight * powOnePointFive (box_area / cal.typical_box_area) :=
    mul_nonneg hbase hp
  nlinarith

lemma calculate_confidence_bounds (bbox : BoundingBox)
    (yolo_confidence box_area typical_area : ℝ) :
    (0.3 : ℝ) ≤ calculate_confidence bbox yolo_confidence box_area typical_area ∧
    calculate_confidence bbox yolo_confidence box_area typical_area ≤ 0.95 := by
  simp only [calculate_confidence]
  exact ⟨le_max_left _ _, max_le (by norm_num) (min_le_left _ _)⟩

/-! ## Claims about the weight estimator -/

set_option linter.unusedVariables false in
/-- C1: for every detection whose class id has a calibration entry and whose
box width and height lie in [0,1], `estimate()` succeeds and returns a
weight within that species' `[min_weight, max_weight]` and a confidence
within `[0.3, 0.95]`, for both values of the conservative flag. -/
theorem estimate_weight_confidence_bounds
    (est : WeightEstimator) (detection : Detection) (frame_shape : ℕ × ℕ × ℕ)
    (use_conservative : Bool) (cal : Calibration)
    (hcal : SPECIES_CALIBRATION detection.class_id = some cal)
    (hw0 : 0 ≤ detection.bounding_box.width)
    (hw1 : detection.bounding_box.width ≤ 1)
    (hh0 : 0 ≤ detection.bounding_box.height)
    (hh1 : detection.bounding_box.height ≤ 1) :
    ∃ w c, (estimate est detection frame_shape use_conservative).2 = .ok (w, c) ∧
      cal.min_weight ≤ w ∧ w ≤ cal.max_weight ∧ (0.3 : ℝ) ≤ c ∧ c ≤ 0.95 := by
  have hmm := calibration_min_le_max hcal
  have hcb := calculate_confidence_bounds detection.bounding_box
    detection.confidence (detection.bounding_box.width * detection.bounding_box.height)
    cal.typical_box_area
  simp only [estimate, hcal]
  exact ⟨_, _, rfl, le_max_left _ _, max_le hmm (min_le_right _ _), hcb.1, hcb.2⟩

/-- Closed witness for C1 at a concrete cattle detection. -/
theorem estimate_weight_confidence_bounds_witness :
    ∃ w c,
      (estimate ⟨0⟩ ⟨19, 0.9, ⟨0.5, 0.5, 0.5, 0.3⟩⟩ (640, 480, 3) true).2 = .ok (w, c) ∧
      cattleCalibration.min_weight ≤ w ∧ w ≤ cattleCalibration.max_weight ∧
      (0.3 : ℝ) ≤ c ∧ c ≤ 0.95 :=
  estimate_weight_confidence_bounds ⟨0⟩ ⟨19, 0.9, ⟨0.5, 0.5, 0.5, 0.3⟩⟩ (640, 480, 3)
    true cattleCalibration rfl (by norm_num) (by norm_num) (by norm_num) (by norm_num)

/-- C7: on identical inputs with a supported class id and a detector
confidence in [0,1], the conservative weight is at most the
non-conservative weight. -/
theorem conservative_weight_le
    (est₁ est₂ : WeightEstimator) (detection : Detection)
    (frame_shape : ℕ × ℕ × ℕ) (cal : Calibration)
    (hcal : SPECIES_CALIBRATION detection.class_id = some cal)
    (hc0 : 0 ≤ detection.confidence) (hc1 : detection.confidence ≤ 1) :
    ∃ w₁ c₁ w₂ c₂,
      (estimate est₁ detection frame_shape true).2 = .ok (w₁, c₁) ∧
      (estimate est₂ detection frame_shape false).2 = .ok (w₂, c₂) ∧
      w₁ ≤ w₂ := by
  have hbase := calibration_base_nonneg hcal
  have hW := calculate_weight_nonneg
    (detection.bounding_box.width * detection.bounding_box.height) cal
    detection.confidence hbase hc0 hc1
  simp only [estimate, hcal, Bool.false_eq_true, if_false, eq_self_iff_true, if_true]
  refine ⟨_, _, _, _, rfl, rfl, ?_⟩
  exact max_le_max le_rfl (min_le_min (by nlinarith) le_rfl)

/-- Closed witness for C7 at a concrete cattle detection. -/
theorem conservative_weight_le_witness :
    ∃ w₁ c₁ w₂ c₂,
      (estimate ⟨0⟩ ⟨19, 0.9, ⟨0.5, 0.5, 0.5, 0.3⟩⟩ (640, 480, 3) true).2 = .ok (w₁, c₁) ∧
      (estimate ⟨4⟩ ⟨19, 0.9, ⟨0.5, 0.5, 0.5, 0.3⟩⟩ (640, 480, 3) false).2 = .ok (w₂, c₂) ∧
      w₁ ≤ w₂ :=
  conservative_weight_le ⟨0⟩ ⟨4⟩ ⟨19, 0.9, ⟨0.5, 0.5, 0.5, 0.3⟩⟩ (640, 480, 3)
    cattleCalibration rfl (by norm_num) (by norm_num)

/-- C8: `estimate()` raises `UnsupportedSpeciesError` exactly when the class
id has no calibration entry, and in that case the estimator comes back
unchanged (no counter bump) with no weight produced — the error carries no
partial result. -/
theorem unsupported_species_exact
    (est : WeightEstimator) (detection : Detection)
    (frame_shape : ℕ × ℕ × ℕ) (use_conservative : Bool) :
    ((estimate est detection frame_shape use_conservative).2 =
        .error (.unsupportedSpecies detection.class_id) ↔
      SPECIES_CALIBRATION detection.class_id = none) ∧
    (SPECIES_CALIBRATION detection.class_id = none →
      estimate est detection frame_shape use_conservative =
        (est, .error (.unsupportedSpecies detection.class_id))) := by
  cases h : SPECIES_CALIBRATION detection.class_id <;> simp [estimate, h]

/-- Closed witness for C8: class id 5 (COCO airplane) has no calibration
entry and `estimate` fails without touching the counter. -/
theorem unsupported_species_exact_witness :
    SPECIES_CALIBRATION 5 = none ∧
    estimate ⟨3⟩ ⟨5, 0.5, ⟨0.5, 0.5, 0.5, 0.5⟩⟩ (640, 480, 3) true =
      (⟨3⟩, .error (.unsupportedSpecies 5)) :=
  ⟨rfl, (unsupported_species_exact ⟨3⟩ ⟨5, 0.5, ⟨0.5, 0.5, 0.5, 0.5⟩⟩
    (640, 480, 3) true).2 rfl⟩

/-- C9 (counterexample): a successful `estimate` call does change the
estimator's observable state — it bumps `_total_estimates` from 0 to 1, and
`get_stats` observes the change — refuting "a call leaves the Weight
Estimator's observable state unchanged (it holds no mutable state that
estimate modifies)". -/
theorem estimate_increments_counter_cex :
    (estimate ⟨0⟩ ⟨19, 0.9, ⟨0.5, 0.5, 0.5, 0.3⟩⟩ (640, 480, 3) true).1 = ⟨1⟩ ∧
    get_stats (estimate ⟨0⟩ ⟨19, 0.9, ⟨0.5, 0.5, 0.5, 0.3⟩⟩ (640, 480, 3) true).1 ≠
      get_stats ⟨0⟩ := by
  refine ⟨rfl, ?_⟩
  have h : (estimate ⟨0⟩ ⟨19, 0.9, ⟨0.5, 0.5, 0.5, 0.3⟩⟩ (640, 480, 3) true).1 =
      (⟨1⟩ : WeightEstimator) := rfl
  rw [h]
  decide

/-- C9 (amended): `estimate` is deterministic — the returned
(weight, confidence) pair depends only on the detection, frame shape and
conservative flag, never on the counter state — but it is not
side-effect-free: a call increments `_total_estimates` exactly when the
class id is supported. -/
theorem estimate_deterministic_with_counter
    (est₁ est₂ : WeightEstimator) (detection : Detection)
    (frame_shape : ℕ × ℕ × ℕ) (use_conservative : Bool) :
    (estimate est₁ detection frame_shape use_conservative).2 =
      (estimate est₂ detection frame_shape use_conservative).2 ∧
    (estimate est₁ detection frame_shape use_conservative).1.total_estimates =
      est₁.total_estimates +
        (if (SPECIES_CALIBRATION detection.class_id).isSome then 1 else 0) := by
  cases h : SPECIES_CALIBRATION detection.class_id <;> simp [estimate, h]

/-! ## Helper lemmas: detection pipeline -/

lemma foldl_process_detection (s : PipelineStats) (l : List DetOutcome) :
    l.foldl process_detection s =
      { s with measurements_created :=
          s.measurements_created + l.countP (· == DetOutcome.ok) } := by
  induction l generalizing s with
  | nil => rfl
  | cons d rest ih =>
      cases d <;>
        (simp only [List.foldl_cons, process_detection, ih, List.countP_cons];
          congr 1 <;> simp <;> omega)

lemma run_pipeline_total_frames (s : PipelineStats) (frames : List FrameOutcome) :
    (run_pipeline s frames).total_frames = s.total_frames + frames.length := by
  induction frames generalizing s with
  | nil => simp [run_pipeline]
  | cons f rest ih =>
      cases f with
      | inferErr =>
          simp only [run_pipeline, process_frame, ih, List.length_cons]
          omega
      | dets l =>
          cases l with
          | nil =>
              simp only [run_pipeline, process_frame, ih, List.length_cons]
              omega
          | cons d ds =>
              simp only [run_pipeline, process_frame, ih, List.length_cons,
                foldl_process_detection]
              omega

/-! ## Claims about the detection pipeline run loop -/

/-- C2: an inference failure on frame K bumps `total_frames` and `errors`
by exactly one, leaves `processed_frames` (and every other counter) alone,
and the loop carries on with the remaining frames; moreover every frame of
the stream is attempted (`total_frames` counts them all), so one bad frame
never halts the stream. -/
theorem frame_isolation (s : PipelineStats) (rest : List FrameOutcome) :
    run_pipeline s (.inferErr :: rest) =
      run_pipeline
        { s with total_frames := s.total_frames + 1, errors := s.errors + 1 } rest ∧
    (∀ frames : List FrameOutcome,
      (run_pipeline s frames).total_frames = s.total_frames + frames.length) := by
  exact ⟨rfl, fun frames => run_pipeline_total_frames s frames⟩

/-- C3 (counterexample): one frame whose single detection fails during
processing leaves `errors` at 0 — the per-detection handler logs and
swallows without counting — refuting "a failure in one detection's
processing from a frame increments errors". -/
theorem detection_failure_not_counted :
    (run_pipeline initStats [.dets [.estimateFail]]).errors = 0 ∧ (0 : ℕ) ≠ 1 := by
  decide

/-- C3 (amended): every per-frame error is caught at the run-loop boundary,
counted in `errors`, and swallowed (the loop continues); every
per-detection error is caught at the detection boundary and swallowed — a
failing detection cancels neither its sibling detections nor the following
frames — but per-detection errors are NOT counted in
`PipelineStats.errors`: only frame-level (inference) failures are. -/
theorem error_propagation_amended (s : PipelineStats)
    (rest : List FrameOutcome) (l : List DetOutcome) :
    run_pipeline s (.inferErr :: rest) =
      run_pipeline
        { s with total_frames := s.total_frames + 1, errors := s.errors + 1 } rest ∧
    (l.foldl process_detection s).errors = s.errors ∧
    run_pipeline s (.dets [.estimateFail, .ok] :: rest) =
      run_pipeline
        { s with total_frames := s.total_frames + 1,
                 processed_frames := s.processed_frames + 1,
                 detections := s.detections + 2,
                 measurements_created := s.measurements_created + 1 } rest := by
  refine ⟨rfl, ?_, rfl⟩
  rw [foldl_process_detection]

/-! ## Claims about the pipeline lifecycle -/

/-- C5: `start()` on a running pipeline raises the spec's
`AlreadyRunningError` (`RuntimeError("Pipeline already running")`) before
any mutation — the error return carries no new state, so pipeline state and
stats are untouched — and the control surface's `stop` rejects a stopped
(or never-constructed) pipeline with the spec's `NotRunningError`
(HTTP 400 "Pipeline not running"). -/
theorem lifecycle_guards (p : PipelineState) (now : ℕ) :
    (p.running = true → start now p = .error .alreadyRunning) ∧
    (p.running = false → stop_pipeline (some p) = .error .notRunning) ∧
    stop_pipeline none = .error .notRunning := by
  refine ⟨fun h => ?_, fun h => ?_, rfl⟩
  · simp [start, h]
  · simp [stop_pipeline, h]

/-- Closed witness for C5: both guards fire on concrete pipelines. -/
theorem lifecycle_guards_witness :
    start 5 { running := true, stats := initStats } = .error .alreadyRunning ∧
    stop_pipeline (some { running := false, stats := initStats }) =
      .error .notRunning :=
  ⟨(lifecycle_guards { running := true, stats := initStats } 5).1 rfl,
   (lifecycle_guards { running := false, stats := initStats } 5).2.1 rfl⟩

/-- C6 (counterexample): `start()` does not reset the counters.  A stopped
pipeline carrying `errors = 1` from an earlier run starts successfully and
still reports `errors = 1`, refuting "immediately after start() returns,
totalFrames, processedFrames, detections, measurementsCreated and errors
are all zero". -/
theorem start_does_not_zero_counters :
    (start 7 { running := false,
               stats := { total_frames := 5, processed_frames := 4, detections := 3,
                          measurements_created := 2, errors := 1,
                          start_time := some 0 } }).map
        (fun p => p.stats.errors) = .ok 1 ∧ (1 : ℕ) ≠ 0 :=
  ⟨rfl, by decide⟩

/-- C6 (amended): a successful `start()` stamps a fresh start time and
leaves every counter at its prior value; the counters are zeroed at
construction (`__init__`) and at no other time — so all counters are zero
after `start()` only when the pipeline is freshly constructed. -/
theorem start_preserves_counters (p : PipelineState) (now : ℕ)
    (h : p.running = false) :
    (∃ p', start now p = .ok p' ∧ p'.running = true ∧
      p'.stats.total_frames = p.stats.total_frames ∧
      p'.stats.processed_frames = p.stats.processed_frames ∧
      p'.stats.detections = p.stats.detections ∧
      p'.stats.measurements_created = p.stats.measurements_created ∧
      p'.stats.errors = p.stats.errors ∧
      p'.stats.start_time = some now) ∧
    initPipeline.stats.total_frames = 0 ∧
    initPipeline.stats.processed_frames = 0 ∧
    initPipeline.stats.detections = 0 ∧
    initPipeline.stats.measurements_created = 0 ∧
    initPipeline.stats.errors = 0 := by
  refine ⟨⟨{ running := true, stats := { p.stats with start_time := some now } },
    ?_, rfl, rfl, rfl, rfl, rfl, rfl, rfl⟩, rfl, rfl, rfl, rfl, rfl⟩
  simp [start, h]

/-- Closed witness for C6 (amended): starting a freshly constructed
pipeline yields all-zero counters with the given start time. -/
theorem start_preserves_counters_witness :
    (∃ p', start 3 initPipeline = .ok p' ∧ p'.running = true ∧
      p'.stats.total_frames = initPipeline.stats.total_frames ∧
      p'.stats.processed_frames = initPipeline.stats.processed_frames ∧
      p'.stats.detections = initPipeline.stats.detections ∧
      p'.stats.measurements_created = initPipeline.stats.measurements_created ∧
      p'.stats.errors = initPipeline.stats.errors ∧
      p'.stats.start_time = some 3) ∧
    initPipeline.stats.total_frames = 0 ∧
    initPipeline.stats.processed_frames = 0 ∧
    initPipeline.stats.detections = 0 ∧
    initPipeline.stats.measurements_created = 0 ∧
    initPipeline.stats.errors = 0 :=
  start_preserves_counters initPipeline 3 rfl

/-! ## Helper lemmas: connection manager -/

lemma broadcastPass_eq (fails : ℕ → Bool) (json_message : String)
    (conns : List ℕ) :
    broadcastPass fails json_message conns =
      ((conns.filter (fun c => !fails c)).length,
       conns.filter fails,
       (conns.filter (fun c => !fails c)).map (fun c => (c, json_message))) := by
  induction conns with
  | nil => rfl
  | cons c rest ih =>
      by_cases h : fails c <;>
        simp [broadcastPass, ih, List.filter_cons, h]

lemma filter_not_mem_filter (conns : List ℕ) (fails : ℕ → Bool) :
    conns.filter (fun c => ¬ c ∈ conns.filter fails) =
      conns.filter (fun c => !fails c) := by
  apply List.filter_congr
  intro c hc
  by_cases h : fails c <;> simp [List.mem_filter, hc, h]

/-! ## Claims about the connection manager -/

/-- C4: one `broadcast(msg)` call serializes the wrapped message once and
(1) every delivered payload is that identical byte string, (2) every
subscriber whose send does not fail receives it — failures of other
subscribers never abort delivery — (3) exactly the failed connections are
removed from the active set after the pass, and (4) a broadcast with zero
subscribers sends nothing and changes nothing. -/
theorem broadcast_fan_out (fails : ℕ → Bool) (m : ConnectionManager)
    (message : Json) :
    (∀ p ∈ (broadcast fails m message).2,
      p.2 = serializeJson (wrapMessage message)) ∧
    (∀ c ∈ m.active_connections, fails c = false →
      (c, serializeJson (wrapMessage message)) ∈ (broadcast fails m message).2) ∧
    (broadcast fails m message).1.active_connections =
      m.active_connections.filter (fun c => !fails c) ∧
    (m.active_connections = [] → broadcast fails m message = (m, [])) := by
  by_cases hA : m.active_connections = []
  · refine ⟨?_, ?_, ?_, fun _ => ?_⟩ <;>
      simp [broadcast, hA]
  · unfold broadcast
    rw [if_neg hA]
    simp only [broadcastPass_eq]
    refine ⟨?_, ?_, ?_, fun h => absurd h hA⟩
    · intro p hp
      simp only [List.mem_map] at hp
      obtain ⟨c, _, rfl⟩ := hp
      rfl
    · intro c hc hfc
      simp only [List.mem_map]
      exact ⟨c, List.mem_filter.mpr ⟨hc, by simp [hfc]⟩, rfl⟩
    · exact filter_not_mem_filter _ _

/-- Closed witness for C4: three subscribers, the middle one failing; the
other two receive the identical payload and only the failing one is
dropped. -/
theorem broadcast_fan_out_witness :
    ((1, serializeJson (wrapMessage (.str "hi"))) ∈
      (broadcast (fun c => c == 2) ⟨[1, 2, 3], 3, 0, 0⟩ (.str "hi")).2) ∧
    ((3, serializeJson (wrapMessage (.str "hi"))) ∈
      (broadcast (fun c => c == 2) ⟨[1, 2, 3], 3, 0, 0⟩ (.str "hi")).2) ∧
    (broadcast (fun c => c == 2) ⟨[1, 2, 3], 3, 0, 0⟩ (.str "hi")).1.active_connections
      = [1, 3] := by
  have h := broadcast_fan_out (fun c => c == 2) ⟨[1, 2, 3], 3, 0, 0⟩ (.str "hi")
  refine ⟨h.2.1 1 (by decide) (by decide), h.2.1 3 (by decide) (by decide), ?_⟩
  rw [h.2.2.1]
  decide

/-- C10 (code evaluated at the failing input): with one connected
subscriber whose send succeeds, `send_heartbeat()` delivers a message whose
top-level `"type"` is `"weight_update"` — `broadcast` wraps every message,
burying the heartbeat object (whose own `"type"` is `"heartbeat"`) under
`"data"` — so the received message does not have `"heartbeat"` as its
top-level type field. -/
theorem heartbeat_wrapped_as_weight_update :
    (send_heartbeat (fun _ => false) ⟨[7], 1, 0, 0⟩ 0).2 =
      [(7, serializeJson (wrapMessage (heartbeatMessage ⟨[7], 1, 0, 0⟩ 0)))] ∧
    topLevelType (heartbeatMessage ⟨[7], 1, 0, 0⟩ 0) = some "heartbeat" ∧
    topLevelType (wrapMessage (heartbeatMessage ⟨[7], 1, 0, 0⟩ 0)) =
      some "weight_update" ∧
    (some "weight_update" : Option String) ≠ some "heartbeat" := by
  refine ⟨rfl, rfl, rfl, by decide⟩

end TaurusVision
